import Mathlib

/-!
Shallow embedding of `manifest_digitizer.py` (CIAD manifest digitization
script).  Python dictionaries holding backend entities are modelled by the
`Entity` structure (the two possible identifier keys `ID` / `id`), caches by
association lists keyed by the normalized display name, and the HTTP backend
by an oracle function from POST requests to optional parsed responses.
Machine floats produced by `clean_numeric_value` are modelled as rationals;
the numerals involved are small decimal literals, which floats represent
exactly.
-/

set_option maxHeartbeats 1000000

namespace Digitizer

/-- Truthiness of an optional integer field, as Python evaluates it:
`None` and `0` are falsy, every other integer is truthy. -/
def truthyO : Option Int → Bool
  | some n => n != 0
  | none => false

/-- Python `a or b` on two optional integer fields: yields `a` when `a`
is truthy, otherwise `b` (even when `b` is itself falsy). -/
def pyOr (a b : Option Int) : Option Int :=
  if truthyO a then a else b

/-- A backend entity payload, reduced to the two possible casings of its
identifier field: `idU` models the value under key `"ID"`, `idL` the value
under key `"id"` (`none` = key absent). -/
structure Entity where
  idU : Option Int
  idL : Option Int
  deriving DecidableEq, Repr

/-- `e.get('ID') or e.get('id')` — the uppercase-first double-casing
identifier extraction used for vessels, persons, system users and the
bootstrap owner. -/
def getIdUL (e : Entity) : Option Int :=
  pyOr e.idU e.idL

/-- `c.get('id') or c.get('ID')` — the lowercase-first double-casing
identifier extraction used for the created compliance record. -/
def getIdLU (e : Entity) : Option Int :=
  pyOr e.idL e.idU

/-! ### Value normalizer: `clean_numeric_value` -/

/-- Python `str.strip()` on a list of characters. -/
def pyStrip (l : List Char) : List Char :=
  ((l.dropWhile Char.isWhitespace).reverse.dropWhile Char.isWhitespace).reverse

/-- Python `str.strip()` at the `String` level. -/
def pyStripStr (s : String) : String :=
  ⟨pyStrip s.data⟩

/-- Python `str.lower().strip()`, the cache-key normalization. -/
def normKey (s : String) : String :=
  ⟨pyStrip (s.data.map Char.toLower)⟩

/-- Decimal value of a digit string, most significant digit first. -/
def digitsToNat (l : List Char) : Nat :=
  l.foldl (fun n c => 10 * n + (c.toNat - 48)) 0

/-- The first match of the regex `\d+(?:\.\d+)?` in the character list:
the maximal digit run starting at the first digit, together with the
fractional digit run when a dot with at least one following digit comes
directly after (an empty second component means no fractional part). -/
def firstNumeral : List Char → Option (List Char × List Char)
  | [] => none
  | c :: rest =>
    if c.isDigit then
      let ds := (c :: rest).takeWhile Char.isDigit
      let r1 := (c :: rest).dropWhile Char.isDigit
      match r1 with
      | '.' :: r2 => some (ds, r2.takeWhile Char.isDigit)
      | _ => some (ds, [])
    else firstNumeral rest

/-- Value of a matched numeral: integer digits plus fractional digits. -/
def numeralVal (ds fs : List Char) : ℚ :=
  (digitsToNat ds : ℚ) + (digitsToNat fs : ℚ) / (10 : ℚ) ^ fs.length

/-- `clean_numeric_value`: `None`/NaN cells (modelled as `none`) and the
empty string give `0.0`; otherwise the input is stripped and the first
`\d+(?:\.\d+)?` match is parsed, `0.0` when there is none. -/
def clean_numeric_value (value : Option String) : ℚ :=
  match value with
  | none => 0
  | some s =>
    if s.data = [] then 0
    else
      match firstNumeral (pyStrip s.data) with
      | none => 0
      | some (ds, fs) => numeralVal ds fs

/-! ### Value normalizer: `format_date` -/

/-- Membership test for a character, mirroring Python `sep in s`. -/
def containsChar (l : List Char) (c : Char) : Bool :=
  match l with
  | [] => false
  | x :: r => if x = c then true else containsChar r c

/-- Split a character list on a separator character (no collapsing),
as `strptime` decomposes `%Y/%m/%d` input on the literal separators. -/
def splitOnSep (sep : Char) : List Char → List (List Char)
  | [] => [[]]
  | c :: rest =>
    let r := splitOnSep sep rest
    if c = sep then [] :: r
    else
      match r with
      | [] => [[c]]
      | h :: t => (c :: h) :: t

/-- Gregorian leap-year rule used by `datetime`. -/
def isLeapYear (y : Nat) : Bool :=
  y % 4 = 0 && (y % 100 != 0 || y % 400 = 0)

/-- Number of days in a month, as `datetime` validates the day field. -/
def daysInMonth (y m : Nat) : Nat :=
  if m = 2 then (if isLeapYear y then 29 else 28)
  else if m = 4 ∨ m = 6 ∨ m = 9 ∨ m = 11 then 30
  else 31

/-- `datetime.strptime(s, '%Y<sep>%m<sep>%d')`: exactly three fields, the
year exactly four digits, month and day one or two digits, all within
calendar range (CPython's `%Y` pattern is four digits, `%m`/`%d` accept one
or two); an invalid date raises, modelled as `none`. -/
def parseFields (ys ms ds : List Char) : Option (Nat × Nat × Nat) :=
  if ys.length = 4 ∧ ys.all Char.isDigit ∧
      1 ≤ ms.length ∧ ms.length ≤ 2 ∧ ms.all Char.isDigit ∧
      1 ≤ ds.length ∧ ds.length ≤ 2 ∧ ds.all Char.isDigit then
    if 1 ≤ digitsToNat ys ∧ 1 ≤ digitsToNat ms ∧ digitsToNat ms ≤ 12 ∧
        1 ≤ digitsToNat ds ∧ digitsToNat ds ≤ daysInMonth (digitsToNat ys) (digitsToNat ms) then
      some (digitsToNat ys, digitsToNat ms, digitsToNat ds)
    else none
  else none

def parseYMD (sep : Char) (s : String) : Option (Nat × Nat × Nat) :=
  match splitOnSep sep s.data with
  | [ys, ms, ds] => parseFields ys ms ds
  | _ => none

/-- The branch structure of `format_date`: slash format when the input
contains `'/'`, dash format otherwise. -/
def dateParse (s : String) : Option (Nat × Nat × Nat) :=
  if containsChar s.data '/' then parseYMD '/' s else parseYMD '-' s

/-- Left-pad a number to two digits, as `datetime.isoformat` renders it. -/
def pad2 (n : Nat) : String :=
  if n < 10 then "0" ++ toString n else toString n

/-- Left-pad a number to four digits, as `datetime.isoformat` renders it. -/
def pad4 (n : Nat) : String :=
  if n < 10 then "000" ++ toString n
  else if n < 100 then "00" ++ toString n
  else if n < 1000 then "0" ++ toString n
  else toString n

/-- `datetime(y, m, d, tzinfo=timezone.utc).isoformat()`. -/
def isoMidnight (y m d : Nat) : String :=
  pad4 y ++ "-" ++ pad2 m ++ "-" ++ pad2 d ++ "T00:00:00+00:00"

/-- `format_date`: parse with the chosen separator and render the UTC
midnight ISO timestamp; on any parse failure return the current UTC
instant, passed in as `now`. -/
def format_date (s : String) (now : String) : String :=
  match dateParse s with
  | some (y, m, d) => isoMidnight y m d
  | none => now

/-! ### Data model of the importer -/

/-- Body of a `POST /compliances` request. -/
structure ComplianceData where
  vesselId : Option Int
  inspectionDate : String
  observations : String
  systemUserId : Option Int
  signersIds : List Int
  deriving DecidableEq, Repr

/-- Body of a `POST /wastes` request. -/
structure WasteData where
  vesselId : Option Int
  wasteTypeId : Option Int
  quantityGenerated : ℚ
  generationDate : String
  complianceId : Int
  deriving DecidableEq, Repr

/-- Body of a `POST /persons` request (bootstrap phase). -/
structure PersonData where
  name : String
  personTypeId : Int
  contactInfo : String
  deriving DecidableEq, Repr

/-- Body of a `POST /vessels` request (bootstrap phase). -/
structure VesselData where
  vesselName : String
  vesselType : String
  ownerId : Option Int
  deriving DecidableEq, Repr

/-- A POST request issued through `_make_request`. -/
inductive Request where
  | compliance : ComplianceData → Request
  | waste : WasteData → Request
  | person : PersonData → Request
  | vessel : VesselData → Request
  deriving DecidableEq, Repr

/-- A parsed `{success: bool, data: {...}}` backend response; `data` may be
absent (`null` or missing key). -/
structure ApiResp where
  success : Bool
  data : Option Entity
  deriving DecidableEq, Repr

/-- The backend, seen through `_make_request`: each POST request gets an
optional parsed response (`none` models a transport/HTTP failure, which the
client logs and swallows). -/
def Oracle : Type :=
  Request → Option ApiResp

/-- The per-run entity caches, keyed by normalized display name
(association lists standing for the Python dictionaries, in insertion
order). -/
structure Caches where
  vessels : List (String × Entity)
  persons : List (String × Entity)
  wasteTypes : List (String × Entity)
  systemUsers : List (String × Entity)
  deriving DecidableEq, Repr

/-- Python dictionary lookup on an association list. -/
def lookupName (key : String) : List (String × Entity) → Option Entity
  | [] => none
  | (k, v) :: rest => if k = key then some v else lookupName key rest

/-- The `manifest_data` dictionary built per row by `process_raw_data`. -/
structure ManifestData where
  vessel_name : String
  inspection_date : String
  oil_used : ℚ
  oil_filters_used : ℚ
  diesel_filters_used : ℚ
  junk_reported : ℚ
  captain_name : String
  chef_name : String
  observations : String
  deriving DecidableEq, Repr

/-! ### Entity resolvers -/

/-- `find_or_create_vessel`: cache lookup by normalized name, `None` when
absent (despite the name, nothing is ever created here). -/
def find_or_create_vessel (vessels_cache : List (String × Entity)) (vessel_name : String) :
    Option Entity :=
  lookupName (normKey vessel_name) vessels_cache

/-- `find_or_create_person`: blank or whitespace-only names resolve to
`None` without a lookup; otherwise a cache lookup by normalized name. -/
def find_or_create_person (persons_cache : List (String × Entity)) (person_name : String) :
    Option Entity :=
  if person_name = "" ∨ pyStripStr person_name = "" then none
  else lookupName (normKey person_name) persons_cache

/-- `get_waste_type_by_name`: cache lookup by normalized name. -/
def get_waste_type_by_name (waste_types_cache : List (String × Entity)) (waste_type_name : String) :
    Option Entity :=
  lookupName (normKey waste_type_name) waste_types_cache

/-- `get_default_inspector`: the first cached system user, or the synthetic
`{'ID': 1, 'FullName': 'Default Inspector'}` placeholder when the cache is
empty. -/
def get_default_inspector (system_users_cache : List (String × Entity)) : Entity :=
  match system_users_cache with
  | [] => { idU := some 1, idL := none }
  | (_, u) :: _ => u

/-! ### `create_compliance_manifest` -/

/-- The contribution of one signer (captain or chef) to `signers_ids`: the
resolved person's double-casing identifier when it is truthy, else
nothing. -/
def signerContribution (persons_cache : List (String × Entity)) (name : String) : List Int :=
  match find_or_create_person persons_cache name with
  | none => []
  | some p =>
    match getIdUL p with
    | some n => if n = 0 then [] else [n]
    | none => []

/-- `signers_ids` as assembled in `create_compliance_manifest`: captain
then chef, with the fallback `[1]` when both are missing. -/
def buildSignersIds (persons_cache : List (String × Entity)) (captain_name chef_name : String) :
    List Int :=
  let s := signerContribution persons_cache captain_name ++
    signerContribution persons_cache chef_name
  if s = [] then [1] else s

/-- The `compliance_data` dictionary submitted to `POST /compliances`. -/
def compliancePayload (st : Caches) (m : ManifestData) (vessel : Entity) : ComplianceData :=
  { vesselId := getIdUL vessel
    inspectionDate := m.inspection_date
    observations := m.observations
    systemUserId := getIdUL (get_default_inspector st.systemUsers)
    signersIds := buildSignersIds st.persons m.captain_name m.chef_name }

/-- One waste-category block of `create_compliance_manifest`: when the
quantity is positive and the fixed waste-type name resolves, one
`POST /wastes` request is issued, whose `wasteTypeId` is read from the
waste-type entity's lowercase `id` key only (`waste_type.get('id')`). -/
def wasteAttempt (st : Caches) (vessel : Entity) (cid : Int) (m : ManifestData)
    (qty : ℚ) (typeName : String) : List Request :=
  if 0 < qty then
    match get_waste_type_by_name st.wasteTypes typeName with
    | some wt =>
      [Request.waste
        { vesselId := getIdUL vessel
          wasteTypeId := wt.idL
          quantityGenerated := qty
          generationDate := m.inspection_date
          complianceId := cid }]
    | none => []
  else []

/-- `create_compliance_manifest`: returns the row outcome together with the
ordered list of POST requests it issues.  The `waste_records_created`
counter of the source only feeds a log line and does not affect the
outcome, so it is not tracked. -/
def create_compliance_manifest (st : Caches) (oracle : Oracle) (m : ManifestData) :
    Bool × List Request :=
  match find_or_create_vessel st.vessels m.vessel_name with
  | none => (false, [])
  | some vessel =>
    match oracle (Request.compliance (compliancePayload st m vessel)) with
    | none => (false, [Request.compliance (compliancePayload st m vessel)])
    | some resp =>
      if resp.success = false then (false, [Request.compliance (compliancePayload st m vessel)])
      else
        match resp.data with
        | none => (false, [Request.compliance (compliancePayload st m vessel)])
        | some compliance =>
          match getIdLU compliance with
          | none => (false, [Request.compliance (compliancePayload st m vessel)])
          | some cid =>
            if cid = 0 then (false, [Request.compliance (compliancePayload st m vessel)])
            else
              (true, Request.compliance (compliancePayload st m vessel) ::
                (wasteAttempt st vessel cid m m.oil_used "Aceite" ++
                 wasteAttempt st vessel cid m m.oil_filters_used "Filtros de Aceite" ++
                 wasteAttempt st vessel cid m m.diesel_filters_used "Filtros Diesel" ++
                 wasteAttempt st vessel cid m m.junk_reported "Desechos Solidos"))

/-! ### `process_raw_data`: the per-row importer loop -/

/-- One CSV row as the script sees it after `pd.read_csv`.  `Option String`
cells model possibly-NaN values (`none` = NaN); `vesselCell` and `date` are
already passed through `str(...)` by the script, so a NaN vessel cell
arrives as the string `"nan"`. -/
structure RawRow where
  rid : String
  vesselCell : String
  date : String
  oilCell : Option String
  oilFiltersCell : Option String
  dieselFiltersCell : Option String
  junkCell : Option String
  captainCell : Option String
  chefCell : Option String
  deriving DecidableEq, Repr

/-- The `manifest_data` dictionary parsed from a row (`now` is the current
UTC instant used by `format_date` on parse failure). -/
def parseRow (now : String) (r : RawRow) : ManifestData :=
  { vessel_name := pyStripStr r.vesselCell
    inspection_date := format_date r.date now
    oil_used := clean_numeric_value r.oilCell
    oil_filters_used := clean_numeric_value r.oilFiltersCell
    diesel_filters_used := clean_numeric_value r.dieselFiltersCell
    junk_reported := clean_numeric_value r.junkCell
    captain_name := match r.captainCell with | some c => pyStripStr c | none => ""
    chef_name := match r.chefCell with | some c => pyStripStr c | none => ""
    observations := "Digitized from physical manifest ID: " ++ r.rid }

/-- `total_waste`, the skip test of the loop body. -/
def totalWaste (m : ManifestData) : ℚ :=
  m.oil_used + m.oil_filters_used + m.diesel_filters_used + m.junk_reported

/-- The run statistics dictionary. -/
structure Stats where
  processed : Nat
  successful : Nat
  failed : Nat
  skipped : Nat
  deriving DecidableEq, Repr

/-- How one loop iteration ends: skipped, successful, failed, or aborted by
an unexpected exception caught by the per-row `except` block. -/
inductive RowResult where
  | skip
  | succ
  | fail
  | exn
  deriving DecidableEq, Repr

/-- The counter updates of one loop iteration: `processed` first, then the
one counter selected by the iteration's outcome (an exception is counted as
failed). -/
def updateStats (s : Stats) (r : RowResult) : Stats :=
  let s1 : Stats := { s with processed := s.processed + 1 }
  match r with
  | RowResult.skip => { s1 with skipped := s1.skipped + 1 }
  | RowResult.succ => { s1 with successful := s1.successful + 1 }
  | RowResult.fail => { s1 with failed := s1.failed + 1 }
  | RowResult.exn => { s1 with failed := s1.failed + 1 }

/-- The `for index, row in df.iterrows()` loop, abstracted over the body's
outcome so that exception-raising iterations are representable. -/
def runLoop (step : RawRow → RowResult) (rows : List RawRow) (s : Stats) : Stats :=
  rows.foldl (fun acc r => updateStats acc (step r)) s

/-- The concrete body of the importer loop: parse the row, skip when the
four waste quantities sum to zero, otherwise succeed or fail with
`create_compliance_manifest`. -/
def rowStep (st : Caches) (oracle : Oracle) (now : String) (r : RawRow) : RowResult :=
  if totalWaste (parseRow now r) = 0 then RowResult.skip
  else if (create_compliance_manifest st oracle (parseRow now r)).1 then RowResult.succ
  else RowResult.fail

/-- `process_raw_data` restricted to its per-row loop: the rows have
already been filtered (dropna, the `test` vessel filter and the slice) and
the caches loaded; the statistics are threaded from the instance state. -/
def process_raw_data (st : Caches) (oracle : Oracle) (now : String) (rows : List RawRow)
    (s : Stats) : Stats :=
  runLoop (rowStep st oracle now) rows s

/-! ### Bootstrap phase: `setup_base_entities` -/

/-- `str(cell)` on a possibly-NaN cell: NaN prints as `"nan"`. -/
def cellStr (c : Option String) : String :=
  match c with
  | some s => s
  | none => "nan"

/-- Outcome of one `create_person_batch`/`create_vessel_batch` call: the
POST request it issued, the entity it returned (`None` unless the response
was successful), and whether the call raised — which happens exactly when
`response.get('data')` is `None` on a successful response, making
`person.get('ID')` an attribute access on `None`. -/
structure CreateResult where
  req : Request
  res : Option Entity
  crashed : Bool
  deriving DecidableEq, Repr

/-- `create_person_batch`. -/
def create_person_batch (oracle : Oracle) (name : String) (person_type_id : Int)
    (contact_info : String) : CreateResult :=
  match oracle (Request.person
    { name := name, personTypeId := person_type_id, contactInfo := contact_info }) with
  | none =>
    { req := Request.person
        { name := name, personTypeId := person_type_id, contactInfo := contact_info }
      res := none, crashed := false }
  | some resp =>
    if resp.success then
      match resp.data with
      | some p =>
        { req := Request.person
            { name := name, personTypeId := person_type_id, contactInfo := contact_info }
          res := some p, crashed := false }
      | none =>
        { req := Request.person
            { name := name, personTypeId := person_type_id, contactInfo := contact_info }
          res := none, crashed := true }
    else
      { req := Request.person
          { name := name, personTypeId := person_type_id, contactInfo := contact_info }
        res := none, crashed := false }

/-- `create_vessel_batch`: same shape as `create_person_batch`. -/
def create_vessel_batch (oracle : Oracle) (vessel_name : String) (vessel_type : String)
    (owner_id : Option Int) : CreateResult :=
  match oracle (Request.vessel
    { vesselName := vessel_name, vesselType := vessel_type, ownerId := owner_id }) with
  | none =>
    { req := Request.vessel
        { vesselName := vessel_name, vesselType := vessel_type, ownerId := owner_id }
      res := none, crashed := false }
  | some resp =>
    if resp.success then
      match resp.data with
      | some v =>
        { req := Request.vessel
            { vesselName := vessel_name, vesselType := vessel_type, ownerId := owner_id }
          res := some v, crashed := false }
      | none =>
        { req := Request.vessel
            { vesselName := vessel_name, vesselType := vessel_type, ownerId := owner_id }
          res := none, crashed := true }
    else
      { req := Request.vessel
          { vesselName := vessel_name, vesselType := vessel_type, ownerId := owner_id }
        res := none, crashed := false }

/-- The distinct non-blank, non-`"nan"` names of one column, in first
occurrence order (a deterministic refinement of the Python `set`, whose
iteration order is unspecified; the created requests per category are the
same collection). -/
def uniqueNames (f : RawRow → String) (rows : List RawRow) : List String :=
  rows.foldl
    (fun acc r =>
      let n := f r
      if n ≠ "" ∧ n ≠ "nan" ∧ n ∉ acc then acc ++ [n] else acc)
    []

/-- The vessel-name column as read in `setup_base_entities`. -/
def vesselField (r : RawRow) : String :=
  pyStripStr r.vesselCell

/-- The captain column as read in `setup_base_entities` (no `pd.notna`
guard there; NaN prints as `"nan"` and is filtered by the name test). -/
def captainField (r : RawRow) : String :=
  pyStripStr (cellStr r.captainCell)

/-- The chef column as read in `setup_base_entities`. -/
def chefField (r : RawRow) : String :=
  pyStripStr (cellStr r.chefCell)

/-- The person-creation loop over one category: the requests issued, the
number of successful creations, and whether an iteration raised (which
aborts the remaining iterations via the outer `except`). -/
def createPersonsLoop (oracle : Oracle) (names : List String) (person_type_id : Int)
    (contact_info : String) : List Request × Nat × Bool :=
  match names with
  | [] => ([], 0, false)
  | n :: rest =>
    if (create_person_batch oracle n person_type_id contact_info).crashed then
      ([(create_person_batch oracle n person_type_id contact_info).req], 0, true)
    else
      ((create_person_batch oracle n person_type_id contact_info).req ::
          (createPersonsLoop oracle rest person_type_id contact_info).1,
        (if (create_person_batch oracle n person_type_id contact_info).res.isSome then 1 else 0) +
          (createPersonsLoop oracle rest person_type_id contact_info).2.1,
        (createPersonsLoop oracle rest person_type_id contact_info).2.2)

/-- The vessel-creation loop, every vessel owned by the bootstrap owner. -/
def createVesselsLoop (oracle : Oracle) (names : List String) (owner_id : Option Int) :
    List Request × Nat × Bool :=
  match names with
  | [] => ([], 0, false)
  | n :: rest =>
    if (create_vessel_batch oracle n "Boat" owner_id).crashed then
      ([(create_vessel_batch oracle n "Boat" owner_id).req], 0, true)
    else
      ((create_vessel_batch oracle n "Boat" owner_id).req ::
          (createVesselsLoop oracle rest owner_id).1,
        (if (create_vessel_batch oracle n "Boat" owner_id).res.isSome then 1 else 0) +
          (createVesselsLoop oracle rest owner_id).2.1,
        (createVesselsLoop oracle rest owner_id).2.2)

/-- Result of `setup_base_entities`: the summary counts, or the `{'error':
...}` dictionary returned on owner failure or on a caught exception. -/
inductive SetupOutcome where
  | ok : Nat → Nat → Nat → SetupOutcome
  | error : SetupOutcome
  deriving DecidableEq, Repr

/-- The fixed `POST /persons` request creating the bootstrap owner
(`PROPIETARIO_TYPE = 3`). -/
def unknownOwnerReq : Request :=
  Request.person { name := "Unknown Owner", personTypeId := 3, contactInfo := "Default vessel owner" }

/-- `setup_base_entities`, from the already-filtered rows: one owner
creation, then the captain, chef and vessel creation loops, with the trace
of issued requests.  Owner failure returns the error dictionary before any
further creation; a raised iteration falls into the outer `except`, also
producing the error dictionary. -/
def setup_base_entities (oracle : Oracle) (rows : List RawRow) :
    SetupOutcome × List Request :=
  if (create_person_batch oracle "Unknown Owner" 3 "Default vessel owner").crashed then
    (SetupOutcome.error, [(create_person_batch oracle "Unknown Owner" 3 "Default vessel owner").req])
  else
    match (create_person_batch oracle "Unknown Owner" 3 "Default vessel owner").res with
    | none =>
      (SetupOutcome.error,
        [(create_person_batch oracle "Unknown Owner" 3 "Default vessel owner").req])
    | some ow =>
      if (createPersonsLoop oracle (uniqueNames captainField rows) 2 "Captain").2.2 then
        (SetupOutcome.error,
          (create_person_batch oracle "Unknown Owner" 3 "Default vessel owner").req ::
            (createPersonsLoop oracle (uniqueNames captainField rows) 2 "Captain").1)
      else if (createPersonsLoop oracle (uniqueNames chefField rows) 1 "Chef").2.2 then
        (SetupOutcome.error,
          (create_person_batch oracle "Unknown Owner" 3 "Default vessel owner").req ::
            (createPersonsLoop oracle (uniqueNames captainField rows) 2 "Captain").1 ++
            (createPersonsLoop oracle (uniqueNames chefField rows) 1 "Chef").1)
      else if (createVesselsLoop oracle (uniqueNames vesselField rows) (getIdUL ow)).2.2 then
        (SetupOutcome.error,
          (create_person_batch oracle "Unknown Owner" 3 "Default vessel owner").req ::
            (createPersonsLoop oracle (uniqueNames captainField rows) 2 "Captain").1 ++
            (createPersonsLoop oracle (uniqueNames chefField rows) 1 "Chef").1 ++
            (createVesselsLoop oracle (uniqueNames vesselField rows) (getIdUL ow)).1)
      else
        (SetupOutcome.ok
            (createPersonsLoop oracle (uniqueNames captainField rows) 2 "Captain").2.1
            (createPersonsLoop oracle (uniqueNames chefField rows) 1 "Chef").2.1
            (createVesselsLoop oracle (uniqueNames vesselField rows) (getIdUL ow)).2.1,
          (create_person_batch oracle "Unknown Owner" 3 "Default vessel owner").req ::
            (createPersonsLoop oracle (uniqueNames captainField rows) 2 "Captain").1 ++
            (createPersonsLoop oracle (uniqueNames chefField rows) 1 "Chef").1 ++
            (createVesselsLoop oracle (uniqueNames vesselField rows) (getIdUL ow)).1)

/-! ### Lemmas about the value normalizer -/

theorem mem_pyStrip {c : Char} {l : List Char} (h : c ∈ pyStrip l) : c ∈ l := by
  unfold pyStrip at h
  rw [List.mem_reverse] at h
  have h2 := (List.dropWhile_sublist Char.isWhitespace).subset h
  rw [List.mem_reverse] at h2
  exact (List.dropWhile_sublist Char.isWhitespace).subset h2

theorem clean_int_eval {s : String} {ds : List Char} (hne : s.data ≠ [])
    (he : firstNumeral (pyStrip s.data) = some (ds, [])) :
    clean_numeric_value (some s) = (digitsToNat ds : ℚ) := by
  simp only [clean_numeric_value, if_neg hne, he]
  show numeralVal ds [] = (digitsToNat ds : ℚ)
  norm_num [numeralVal, show digitsToNat [] = 0 from rfl]

theorem firstNumeral_eq_none {l : List Char} (h : ∀ c ∈ l, c.isDigit = false) :
    firstNumeral l = none := by
  induction l with
  | nil => rfl
  | cons c rest ih =>
    rw [firstNumeral, h c (List.mem_cons_self c rest)]
    simp only [Bool.false_eq_true, if_false]
    exact ih fun x hx => h x (List.mem_cons_of_mem c hx)

theorem firstNumeral_append_nodigit {p l : List Char} (h : ∀ c ∈ p, c.isDigit = false) :
    firstNumeral (p ++ l) = firstNumeral l := by
  induction p with
  | nil => rfl
  | cons c rest ih =>
    rw [List.cons_append, firstNumeral, h c (List.mem_cons_self c rest)]
    simp only [Bool.false_eq_true, if_false]
    exact ih fun x hx => h x (List.mem_cons_of_mem c hx)

theorem takeWhile_digit_append (ds t : List Char) (h : ∀ c ∈ ds, c.isDigit = true) :
    (ds ++ t).takeWhile Char.isDigit = ds ++ t.takeWhile Char.isDigit ∧
    (ds ++ t).dropWhile Char.isDigit = t.dropWhile Char.isDigit := by
  induction ds with
  | nil => exact ⟨rfl, rfl⟩
  | cons c rest ih =>
    have hc := h c (List.mem_cons_self c rest)
    have ihr := ih fun x hx => h x (List.mem_cons_of_mem c hx)
    constructor
    · rw [List.cons_append, List.takeWhile_cons, hc]
      simp only [if_true, ihr.1, List.cons_append]
    · rw [List.cons_append, List.dropWhile_cons, hc]
      simp only [if_true, ihr.2]

theorem takeWhile_digit_nodigit {t : List Char} (h : ∀ c ∈ t, c.isDigit = false) :
    t.takeWhile Char.isDigit = [] ∧ t.dropWhile Char.isDigit = t := by
  cases t with
  | nil => exact ⟨rfl, rfl⟩
  | cons c rest =>
    have hc := h c (List.mem_cons_self c rest)
    constructor
    · rw [List.takeWhile_cons, hc]
      simp
    · rw [List.dropWhile_cons, hc]
      simp

theorem firstNumeral_int_form {ds rest : List Char} (hne : ds ≠ [])
    (hds : ∀ c ∈ ds, c.isDigit = true) (hrest : ∀ c ∈ rest, c.isDigit = false) :
    firstNumeral (ds ++ rest) = some (ds, []) := by
  cases ds with
  | nil => exact absurd rfl hne
  | cons d ds2 =>
    have hd := hds d (List.mem_cons_self d ds2)
    have htk := takeWhile_digit_append (d :: ds2) rest hds
    have hnd := takeWhile_digit_nodigit hrest
    rw [List.cons_append, firstNumeral, hd]
    simp only [if_true]
    rw [← List.cons_append, htk.1, htk.2, hnd.1, hnd.2, List.append_nil]
    cases hr : rest with
    | nil => rfl
    | cons c r2 =>
      have hc : c.isDigit = false := hrest c (hr ▸ List.mem_cons_self c r2)
      have hcdot : c ≠ '.' ∨ c = '.' := (ne_or_eq c '.')
      cases hcdot with
      | inr he =>
        subst he
        have h2 : ∀ x ∈ r2, x.isDigit = false := fun x hx =>
          hrest x (hr ▸ List.mem_cons_of_mem '.' hx)
        simp only [(takeWhile_digit_nodigit h2).1]
      | inl hne2 =>
        split
        · rename_i r3 heq
          exact absurd (by injection heq) hne2
        · rfl

theorem firstNumeral_dec_form {ds fs rest : List Char} (hdne : ds ≠ []) (_hfne : fs ≠ [])
    (hds : ∀ c ∈ ds, c.isDigit = true) (hfs : ∀ c ∈ fs, c.isDigit = true)
    (hrest : ∀ c ∈ rest, c.isDigit = false) :
    firstNumeral (ds ++ '.' :: (fs ++ rest)) = some (ds, fs) := by
  cases ds with
  | nil => exact absurd rfl hdne
  | cons d ds2 =>
    have hd := hds d (List.mem_cons_self d ds2)
    have htk := takeWhile_digit_append (d :: ds2) ('.' :: (fs ++ rest)) hds
    have hdot : ('.' : Char).isDigit = false := by decide
    rw [List.cons_append, firstNumeral, hd]
    simp only [if_true]
    rw [← List.cons_append, htk.1, htk.2, List.takeWhile_cons, List.dropWhile_cons, hdot]
    simp only [Bool.false_eq_true, if_false, List.append_nil]
    have hf := takeWhile_digit_append fs rest hfs
    rw [hf.1, (takeWhile_digit_nodigit hrest).1, List.append_nil]

/-- C7: `clean_numeric_value` returns 0.0 for missing (`none`) or empty
input and for input containing no numeral; otherwise it returns, as a
float, the value of the first contiguous `\d+(\.\d+)?` numeral substring of
the (stripped) input — stated for the integer form and for the decimal
form. -/
theorem claim7_clean_numeric_value :
    (clean_numeric_value none = 0) ∧
    (clean_numeric_value (some "") = 0) ∧
    (∀ s : String, (∀ c ∈ s.data, c.isDigit = false) → clean_numeric_value (some s) = 0) ∧
    (∀ (s : String) (p ds rest : List Char),
      pyStrip s.data = p ++ (ds ++ rest) → (∀ c ∈ p, c.isDigit = false) → ds ≠ [] →
      (∀ c ∈ ds, c.isDigit = true) → (∀ c ∈ rest, c.isDigit = false) →
      clean_numeric_value (some s) = (digitsToNat ds : ℚ)) ∧
    (∀ (s : String) (p ds fs rest : List Char),
      pyStrip s.data = p ++ (ds ++ '.' :: (fs ++ rest)) → (∀ c ∈ p, c.isDigit = false) →
      ds ≠ [] → fs ≠ [] → (∀ c ∈ ds, c.isDigit = true) → (∀ c ∈ fs, c.isDigit = true) →
      (∀ c ∈ rest, c.isDigit = false) →
      clean_numeric_value (some s) =
        (digitsToNat ds : ℚ) + (digitsToNat fs : ℚ) / (10 : ℚ) ^ fs.length) := by
  refine ⟨rfl, rfl, ?_, ?_, ?_⟩
  · intro s h
    have hnone : firstNumeral (pyStrip s.data) = none :=
      firstNumeral_eq_none fun c hc => h c (mem_pyStrip hc)
    by_cases he : s.data = []
    · simp [clean_numeric_value, he]
    · simp [clean_numeric_value, he, hnone]
  · intro s p ds rest heq hp hne hds hrest
    have hsd : s.data ≠ [] := by
      intro h0
      rw [h0] at heq
      have h1 : ([] : List Char) = p ++ (ds ++ rest) := heq
      have h2 := h1.symm
      rw [List.append_eq_nil, List.append_eq_nil] at h2
      exact hne h2.2.1
    have hfn : firstNumeral (pyStrip s.data) = some (ds, []) := by
      rw [heq, firstNumeral_append_nodigit hp, firstNumeral_int_form hne hds hrest]
    simp only [clean_numeric_value]
    rw [if_neg hsd, hfn]
    show numeralVal ds [] = (digitsToNat ds : ℚ)
    simp [numeralVal, digitsToNat]
  · intro s p ds fs rest heq hp hdne hfne hds hfs hrest
    have hsd : s.data ≠ [] := by
      intro h0
      rw [h0] at heq
      have h1 : ([] : List Char) = p ++ (ds ++ '.' :: (fs ++ rest)) := heq
      have h2 := h1.symm
      rw [List.append_eq_nil, List.append_eq_nil] at h2
      exact hdne h2.2.1
    have hfn : firstNumeral (pyStrip s.data) = some (ds, fs) := by
      rw [heq, firstNumeral_append_nodigit hp, firstNumeral_dec_form hdne hfne hds hfs hrest]
    simp only [clean_numeric_value]
    rw [if_neg hsd, hfn]
    rfl

/-- Witness for C7 at the spec's own examples: `"120 litros"` parses to
`120.0` and `"n/a"` to `0.0`. -/
theorem claim7_witness :
    clean_numeric_value (some "120 litros") = 120 ∧ clean_numeric_value (some "n/a") = 0 := by
  constructor
  · have h := claim7_clean_numeric_value.2.2.2.1 "120 litros" [] ['1', '2', '0']
      [' ', 'l', 'i', 't', 'r', 'o', 's'] (by decide) (by decide) (by decide) (by decide)
      (by decide)
    have hv : digitsToNat ['1', '2', '0'] = 120 := by decide
    rw [h, hv]
    norm_num
  · exact claim7_clean_numeric_value.2.2.1 "n/a" (by decide)

/-! ### Lemmas about the date normalizer -/

theorem containsChar_true {l : List Char} {c : Char} (h : c ∈ l) : containsChar l c = true := by
  induction l with
  | nil => cases h
  | cons x r ih =>
    rw [containsChar]
    by_cases hx : x = c
    · simp [hx]
    · rw [if_neg hx]
      cases h with
      | head => exact absurd rfl hx
      | tail _ hm => exact ih hm

theorem containsChar_false {l : List Char} {c : Char} (h : c ∉ l) : containsChar l c = false := by
  induction l with
  | nil => rfl
  | cons x r ih =>
    rw [containsChar]
    have hx : x ≠ c := fun he => h (he ▸ List.mem_cons_self x r)
    rw [if_neg hx]
    exact ih fun hm => h (List.mem_cons_of_mem x hm)

theorem digit_ne_slash {c : Char} (h : c.isDigit = true) : c ≠ '/' := by
  intro he
  subst he
  exact absurd h (by decide)

theorem digit_ne_dash {c : Char} (h : c.isDigit = true) : c ≠ '-' := by
  intro he
  subst he
  exact absurd h (by decide)

theorem splitOnSep_append_sep {sep : Char} {a rest : List Char} (h : ∀ c ∈ a, c ≠ sep) :
    splitOnSep sep (a ++ sep :: rest) = a :: splitOnSep sep rest := by
  induction a with
  | nil => simp [splitOnSep]
  | cons x a2 ih =>
    have hx : x ≠ sep := h x (List.mem_cons_self x a2)
    have ih2 := ih fun c hc => h c (List.mem_cons_of_mem x hc)
    simp only [List.cons_append, splitOnSep, if_neg hx, List.append_eq, ih2]

theorem splitOnSep_no_sep {sep : Char} {a : List Char} (h : ∀ c ∈ a, c ≠ sep) :
    splitOnSep sep a = [a] := by
  induction a with
  | nil => rfl
  | cons x a2 ih =>
    have hx : x ≠ sep := h x (List.mem_cons_self x a2)
    have ih2 := ih fun c hc => h c (List.mem_cons_of_mem x hc)
    simp only [splitOnSep, if_neg hx, ih2]

theorem parseYMD_eval (sep : Char) {ys ms ds : List Char}
    (hysep : ∀ c ∈ ys, c ≠ sep) (hmsep : ∀ c ∈ ms, c ≠ sep) (hdsep : ∀ c ∈ ds, c ≠ sep)
    (hy4 : ys.length = 4) (hyd : ∀ c ∈ ys, c.isDigit = true)
    (hm1 : 1 ≤ ms.length) (hm2 : ms.length ≤ 2) (hmd : ∀ c ∈ ms, c.isDigit = true)
    (hd1 : 1 ≤ ds.length) (hd2 : ds.length ≤ 2) (hdd : ∀ c ∈ ds, c.isDigit = true)
    (hvy : 1 ≤ digitsToNat ys)
    (hvm1 : 1 ≤ digitsToNat ms) (hvm2 : digitsToNat ms ≤ 12)
    (hvd1 : 1 ≤ digitsToNat ds)
    (hvd2 : digitsToNat ds ≤ daysInMonth (digitsToNat ys) (digitsToNat ms)) :
    parseYMD sep ⟨ys ++ sep :: (ms ++ sep :: ds)⟩ =
      some (digitsToNat ys, digitsToNat ms, digitsToNat ds) := by
  have hsplit : splitOnSep sep (ys ++ sep :: (ms ++ sep :: ds)) = [ys, ms, ds] := by
    rw [splitOnSep_append_sep hysep, splitOnSep_append_sep hmsep, splitOnSep_no_sep hdsep]
  unfold parseYMD
  rw [show (String.mk (ys ++ sep :: (ms ++ sep :: ds))).data = ys ++ sep :: (ms ++ sep :: ds)
    from rfl]
  rw [hsplit]
  show parseFields ys ms ds = some (digitsToNat ys, digitsToNat ms, digitsToNat ds)
  unfold parseFields
  rw [if_pos ⟨hy4, List.all_eq_true.mpr hyd, hm1, hm2, List.all_eq_true.mpr hmd,
    hd1, hd2, List.all_eq_true.mpr hdd⟩]
  rw [if_pos ⟨hvy, hvm1, hvm2, hvd1, hvd2⟩]

/-- C8: `format_date` maps the same calendar date, rendered with `/` or
with `-` separators, to the same UTC-midnight ISO-8601 timestamp, and on
parse failure returns the current UTC instant `now` instead of raising. -/
theorem claim8_format_date (ys ms ds : List Char) (now : String)
    (hy4 : ys.length = 4) (hyd : ∀ c ∈ ys, c.isDigit = true)
    (hm1 : 1 ≤ ms.length) (hm2 : ms.length ≤ 2) (hmd : ∀ c ∈ ms, c.isDigit = true)
    (hd1 : 1 ≤ ds.length) (hd2 : ds.length ≤ 2) (hdd : ∀ c ∈ ds, c.isDigit = true)
    (hvy : 1 ≤ digitsToNat ys)
    (hvm1 : 1 ≤ digitsToNat ms) (hvm2 : digitsToNat ms ≤ 12)
    (hvd1 : 1 ≤ digitsToNat ds)
    (hvd2 : digitsToNat ds ≤ daysInMonth (digitsToNat ys) (digitsToNat ms)) :
    format_date ⟨ys ++ '/' :: (ms ++ '/' :: ds)⟩ now =
      isoMidnight (digitsToNat ys) (digitsToNat ms) (digitsToNat ds) ∧
    format_date ⟨ys ++ '-' :: (ms ++ '-' :: ds)⟩ now =
      isoMidnight (digitsToNat ys) (digitsToNat ms) (digitsToNat ds) ∧
    ∀ s : String, dateParse s = none → format_date s now = now := by
  refine ⟨?_, ?_, ?_⟩
  · have hc : containsChar (ys ++ '/' :: (ms ++ '/' :: ds)) '/' = true :=
      containsChar_true (List.mem_append_right ys (List.mem_cons_self '/' _))
    have hp := parseYMD_eval '/'
      (fun c hc2 => digit_ne_slash (hyd c hc2)) (fun c hc2 => digit_ne_slash (hmd c hc2))
      (fun c hc2 => digit_ne_slash (hdd c hc2))
      hy4 hyd hm1 hm2 hmd hd1 hd2 hdd hvy hvm1 hvm2 hvd1 hvd2
    have hdp : dateParse ⟨ys ++ '/' :: (ms ++ '/' :: ds)⟩ =
        some (digitsToNat ys, digitsToNat ms, digitsToNat ds) := by
      unfold dateParse
      rw [show (String.mk (ys ++ '/' :: (ms ++ '/' :: ds))).data = ys ++ '/' :: (ms ++ '/' :: ds)
        from rfl]
      rw [hc, if_pos rfl]
      exact hp
    rw [format_date, hdp]
  · have hnm : '/' ∉ ys ++ '-' :: (ms ++ '-' :: ds) := by
      intro hm
      rcases List.mem_append.mp hm with h1 | h1
      · exact digit_ne_slash (hyd '/' h1) rfl
      · rcases List.mem_cons.mp h1 with h2 | h2
        · exact absurd h2 (by decide)
        · rcases List.mem_append.mp h2 with h3 | h3
          · exact digit_ne_slash (hmd '/' h3) rfl
          · rcases List.mem_cons.mp h3 with h4 | h4
            · exact absurd h4 (by decide)
            · exact digit_ne_slash (hdd '/' h4) rfl
    have hc : containsChar (ys ++ '-' :: (ms ++ '-' :: ds)) '/' = false := containsChar_false hnm
    have hp := parseYMD_eval '-'
      (fun c hc2 => digit_ne_dash (hyd c hc2)) (fun c hc2 => digit_ne_dash (hmd c hc2))
      (fun c hc2 => digit_ne_dash (hdd c hc2))
      hy4 hyd hm1 hm2 hmd hd1 hd2 hdd hvy hvm1 hvm2 hvd1 hvd2
    have hdp : dateParse ⟨ys ++ '-' :: (ms ++ '-' :: ds)⟩ =
        some (digitsToNat ys, digitsToNat ms, digitsToNat ds) := by
      unfold dateParse
      rw [show (String.mk (ys ++ '-' :: (ms ++ '-' :: ds))).data = ys ++ '-' :: (ms ++ '-' :: ds)
        from rfl]
      rw [hc]
      simp only [Bool.false_eq_true, if_false]
      exact hp
    rw [format_date, hdp]
  · intro s h
    rw [format_date, h]

/-- Witness for C8 at the spec's own example: `2024/03/15` and
`2024-03-15` both normalize to `2024-03-15T00:00:00+00:00`, and an
unparseable string falls back to `now`. -/
theorem claim8_witness :
    format_date "2024/03/15" "NOW" = "2024-03-15T00:00:00+00:00" ∧
    format_date "2024-03-15" "NOW" = "2024-03-15T00:00:00+00:00" ∧
    format_date "n/a" "NOW" = "NOW" := by
  have h := claim8_format_date ['2', '0', '2', '4'] ['0', '3'] ['1', '5'] "NOW"
    (by decide) (by decide) (by decide) (by decide) (by decide) (by decide) (by decide)
    (by decide) (by decide) (by decide) (by decide) (by decide) (by decide)
  have hs : (⟨['2', '0', '2', '4'] ++ '/' :: (['0', '3'] ++ '/' :: ['1', '5'])⟩ : String) =
      "2024/03/15" := by decide
  have hd : (⟨['2', '0', '2', '4'] ++ '-' :: (['0', '3'] ++ '-' :: ['1', '5'])⟩ : String) =
      "2024-03-15" := by decide
  have hiso : isoMidnight (digitsToNat ['2', '0', '2', '4']) (digitsToNat ['0', '3'])
      (digitsToNat ['1', '5']) = "2024-03-15T00:00:00+00:00" := by decide
  refine ⟨?_, ?_, ?_⟩
  · rw [← hs, ← hiso]
    exact h.1
  · rw [← hd, ← hiso]
    exact h.2.1
  · exact h.2.2 "n/a" (by decide)

/-! ### Lemmas about `create_compliance_manifest` -/

theorem truthyO_eq_true {o : Option Int} : truthyO o = true ↔ ∃ n, o = some n ∧ n ≠ 0 := by
  cases o with
  | none => simp [truthyO]
  | some n => simp [truthyO]

theorem mem_wasteAttempt {st : Caches} {v : Entity} {cid : Int} {m : ManifestData} {q : ℚ}
    {tn : String} {r : Request} (h : r ∈ wasteAttempt st v cid m q tn) :
    ∃ w, r = Request.waste w := by
  unfold wasteAttempt at h
  split at h
  · split at h
    · rcases List.mem_singleton.mp h with rfl
      exact ⟨_, rfl⟩
    · cases h
  · cases h

theorem trace_head {st : Caches} {oracle : Oracle} {m : ManifestData} {v : Entity}
    (hv : find_or_create_vessel st.vessels m.vessel_name = some v) :
    ∃ ws, (create_compliance_manifest st oracle m).2 =
      Request.compliance (compliancePayload st m v) :: ws := by
  unfold create_compliance_manifest
  rw [hv]
  show ∃ ws,
    (match oracle (Request.compliance (compliancePayload st m v)) with
      | none => (false, [Request.compliance (compliancePayload st m v)])
      | some resp =>
        if resp.success = false then (false, [Request.compliance (compliancePayload st m v)])
        else
          match resp.data with
          | none => (false, [Request.compliance (compliancePayload st m v)])
          | some compliance =>
            match getIdLU compliance with
            | none => (false, [Request.compliance (compliancePayload st m v)])
            | some cid =>
              if cid = 0 then (false, [Request.compliance (compliancePayload st m v)])
              else
                (true, Request.compliance (compliancePayload st m v) ::
                  (wasteAttempt st v cid m m.oil_used "Aceite" ++
                   wasteAttempt st v cid m m.oil_filters_used "Filtros de Aceite" ++
                   wasteAttempt st v cid m m.diesel_filters_used "Filtros Diesel" ++
                   wasteAttempt st v cid m m.junk_reported "Desechos Solidos"))).2 =
      Request.compliance (compliancePayload st m v) :: ws
  repeat first
  | exact ⟨_, rfl⟩
  | split

/-- C2: for every processed row, the compliance creation request comes
first in the issued-request trace, every later request of the row is a
waste creation, and whenever the row fails (in particular when the
compliance creation fails for any reason) no waste request at all is
issued; the vessel-missing case issues nothing. -/
theorem claim2_compliance_first (st : Caches) (oracle : Oracle) (m : ManifestData) :
    (create_compliance_manifest st oracle m).2 = [] ∨
    ∃ c ws, (create_compliance_manifest st oracle m).2 = Request.compliance c :: ws ∧
      (∀ r ∈ ws, ∃ w, r = Request.waste w) ∧
      ((create_compliance_manifest st oracle m).1 = false → ws = []) := by
  unfold create_compliance_manifest
  split
  · exact Or.inl rfl
  · rename_i vessel hv
    refine Or.inr ?_
    split
    · exact ⟨_, [], rfl, fun r hr => absurd hr (List.not_mem_nil r), fun _ => rfl⟩
    · rename_i resp ho
      split
      · exact ⟨_, [], rfl, fun r hr => absurd hr (List.not_mem_nil r), fun _ => rfl⟩
      · split
        · exact ⟨_, [], rfl, fun r hr => absurd hr (List.not_mem_nil r), fun _ => rfl⟩
        · rename_i compliance hd
          split
          · exact ⟨_, [], rfl, fun r hr => absurd hr (List.not_mem_nil r), fun _ => rfl⟩
          · rename_i cid hcid
            split
            · exact ⟨_, [], rfl, fun r hr => absurd hr (List.not_mem_nil r), fun _ => rfl⟩
            · refine ⟨_, _, rfl, ?_, ?_⟩
              · intro r hr
                rcases List.mem_append.mp hr with h1 | h1
                · rcases List.mem_append.mp h1 with h2 | h2
                  · rcases List.mem_append.mp h2 with h3 | h3
                    · exact mem_wasteAttempt h3
                    · exact mem_wasteAttempt h3
                  · exact mem_wasteAttempt h2
                · exact mem_wasteAttempt h1
              · intro hfalse
                exact absurd hfalse (by simp)

theorem signerContribution_empty {pc : List (String × Entity)} {name : String}
    (h : ∀ p, find_or_create_person pc name = some p → truthyO (getIdUL p) = false) :
    signerContribution pc name = [] := by
  unfold signerContribution
  cases hp : find_or_create_person pc name with
  | none => rfl
  | some p =>
    have ht := h p hp
    show (match getIdUL p with
      | some n => if n = 0 then [] else [n]
      | none => []) = []
    cases hg : getIdUL p with
    | none => rfl
    | some n =>
      rw [hg] at ht
      have hn : n = 0 := by
        simpa [truthyO] using ht
      show (if n = 0 then [] else [n]) = []
      rw [if_pos hn]

/-- C5: when neither the captain nor the chef resolves to a cached person
carrying a (truthy) identifier, the compliance payload's `signersIds` is
exactly the one-element fallback list `[1]`, and that payload is what the
row submits. -/
theorem claim5_fallback_signer (st : Caches) (oracle : Oracle) (m : ManifestData) (v : Entity)
    (hv : find_or_create_vessel st.vessels m.vessel_name = some v)
    (hcap : ∀ p, find_or_create_person st.persons m.captain_name = some p →
      truthyO (getIdUL p) = false)
    (hchef : ∀ p, find_or_create_person st.persons m.chef_name = some p →
      truthyO (getIdUL p) = false) :
    (compliancePayload st m v).signersIds = [1] ∧
    ∃ ws, (create_compliance_manifest st oracle m).2 =
      Request.compliance (compliancePayload st m v) :: ws := by
  constructor
  · show buildSignersIds st.persons m.captain_name m.chef_name = [1]
    unfold buildSignersIds
    rw [signerContribution_empty hcap, signerContribution_empty hchef]
    rfl
  · exact trace_head hv

/-- Witness for C5: an empty persons cache resolves no signer, so the
submitted compliance body carries the fallback signer list `[1]`. -/
theorem claim5_witness :
    (compliancePayload
        { vessels := [("boaty", { idU := some 4, idL := none })], persons := [],
          wasteTypes := [], systemUsers := [] }
        { vessel_name := "Boaty", inspection_date := "2024-01-10T00:00:00+00:00",
          oil_used := 50, oil_filters_used := 0, diesel_filters_used := 0, junk_reported := 0,
          captain_name := "John Doe", chef_name := "",
          observations := "Digitized from physical manifest ID: 7" }
        { idU := some 4, idL := none }).signersIds = [1] := by
  have h := claim5_fallback_signer
    { vessels := [("boaty", { idU := some 4, idL := none })], persons := [],
      wasteTypes := [], systemUsers := [] }
    (fun _ => none)
    { vessel_name := "Boaty", inspection_date := "2024-01-10T00:00:00+00:00",
      oil_used := 50, oil_filters_used := 0, diesel_filters_used := 0, junk_reported := 0,
      captain_name := "John Doe", chef_name := "",
      observations := "Digitized from physical manifest ID: 7" }
    { idU := some 4, idL := none }
    (by decide)
    (fun p hp => by simp [find_or_create_person, normKey, pyStrip, lookupName] at hp)
    (fun p hp => by simp [find_or_create_person] at hp)
  exact h.1

/-! ### Row-outcome claims -/

/-- C6: when a row's compliance creation succeeds (response present, its
success flag set, and a truthy compliance identifier in the returned data),
the row's outcome is success and the loop counts it in `successful` —
whatever the oracle answers to the row's waste creation requests, since the
returned outcome never consults those responses. -/
theorem claim6_waste_failure_tolerated (st : Caches) (oracle : Oracle) (now : String)
    (row : RawRow) (s : Stats) (v : Entity) (resp : ApiResp) (e : Entity)
    (hq : totalWaste (parseRow now row) ≠ 0)
    (hv : find_or_create_vessel st.vessels (parseRow now row).vessel_name = some v)
    (hr : oracle (Request.compliance (compliancePayload st (parseRow now row) v)) = some resp)
    (hs : resp.success = true)
    (hd : resp.data = some e)
    (hid : truthyO (getIdLU e) = true) :
    (create_compliance_manifest st oracle (parseRow now row)).1 = true ∧
    updateStats s (rowStep st oracle now row) =
      { s with processed := s.processed + 1, successful := s.successful + 1 } := by
  obtain ⟨cid, hcid, hcne⟩ := truthyO_eq_true.mp hid
  have h1 : (create_compliance_manifest st oracle (parseRow now row)).1 = true := by
    simp [create_compliance_manifest, hv, hr, hs, hd, hcid, hcne]
  refine ⟨h1, ?_⟩
  have h2 : rowStep st oracle now row = RowResult.succ := by
    simp [rowStep, hq, h1]
  rw [h2]
  rfl

/-- Witness for C6: a one-vessel cache and an oracle that accepts the
compliance but rejects every waste request still yields a successful row
counted in `successful`. -/
theorem claim6_witness :
    updateStats { processed := 3, successful := 1, failed := 1, skipped := 1 }
      (rowStep
        { vessels := [("atlantic star", { idU := some 7, idL := none })], persons := [],
          wasteTypes := [("aceite", { idU := none, idL := some 2 })], systemUsers := [] }
        (fun r => match r with
          | Request.compliance _ => some { success := true, data := some { idU := none, idL := some 11 } }
          | _ => some { success := false, data := none })
        "2024-01-01T00:00:00+00:00"
        { rid := "7", vesselCell := "Atlantic Star", date := "2024/01/10",
          oilCell := some "50 litros", oilFiltersCell := some "0",
          dieselFiltersCell := some "0", junkCell := some "0",
          captainCell := none, chefCell := none }) =
      { processed := 4, successful := 2, failed := 1, skipped := 1 } := by
  have he50 : firstNumeral (pyStrip "50 litros".data) = some (['5', '0'], []) := by decide
  have h50 : clean_numeric_value (some "50 litros") = 50 := by
    rw [clean_int_eval (by decide) he50]
    norm_num [show digitsToNat ['5', '0'] = 50 from by decide]
  have h0 : clean_numeric_value (some "0") = 0 := by
    norm_num +decide [clean_numeric_value, numeralVal, digitsToNat, firstNumeral, pyStrip]
  have hq : totalWaste (parseRow "2024-01-01T00:00:00+00:00"
      { rid := "7", vesselCell := "Atlantic Star", date := "2024/01/10",
        oilCell := some "50 litros", oilFiltersCell := some "0",
        dieselFiltersCell := some "0", junkCell := some "0",
        captainCell := none, chefCell := none }) ≠ 0 := by
    simp [totalWaste, parseRow, h50, h0]
  have h := claim6_waste_failure_tolerated
    { vessels := [("atlantic star", { idU := some 7, idL := none })], persons := [],
      wasteTypes := [("aceite", { idU := none, idL := some 2 })], systemUsers := [] }
    (fun r => match r with
      | Request.compliance _ => some { success := true, data := some { idU := none, idL := some 11 } }
      | _ => some { success := false, data := none })
    "2024-01-01T00:00:00+00:00"
    { rid := "7", vesselCell := "Atlantic Star", date := "2024/01/10",
      oilCell := some "50 litros", oilFiltersCell := some "0",
      dieselFiltersCell := some "0", junkCell := some "0",
      captainCell := none, chefCell := none }
    { processed := 3, successful := 1, failed := 1, skipped := 1 }
    { idU := some 7, idL := none }
    { success := true, data := some { idU := none, idL := some 11 } }
    { idU := none, idL := some 11 }
    hq (by decide) rfl rfl rfl (by decide)
  exact h.2

/-- C3 (amended): a row that reaches submission (nonzero waste total) and
whose vessel name does not resolve against the vessel cache fails with
zero POST requests issued, and the loop counts it in `failed`. -/
theorem claim3_vessel_missing (st : Caches) (oracle : Oracle) (now : String)
    (row : RawRow) (s : Stats)
    (hq : totalWaste (parseRow now row) ≠ 0)
    (hv : find_or_create_vessel st.vessels (parseRow now row).vessel_name = none) :
    create_compliance_manifest st oracle (parseRow now row) = (false, []) ∧
    updateStats s (rowStep st oracle now row) =
      { s with processed := s.processed + 1, failed := s.failed + 1 } := by
  have h1 : create_compliance_manifest st oracle (parseRow now row) = (false, []) := by
    simp [create_compliance_manifest, hv]
  refine ⟨h1, ?_⟩
  have h2 : rowStep st oracle now row = RowResult.fail := by
    simp [rowStep, hq, h1]
  rw [h2]
  rfl

/-- Counterexample for C3 as stated: with an empty cache a row whose four
quantities are all zero is skipped before the vessel lookup, so the row
does not fail and the `failed` counter stays at zero — the claim's
"every row when the cache is empty" fails on zero-waste rows. -/
theorem claim3_counterexample :
    ({ vessels := [], persons := [], wasteTypes := [], systemUsers := [] } : Caches).vessels
      = [] ∧
    updateStats { processed := 0, successful := 0, failed := 0, skipped := 0 }
      (rowStep { vessels := [], persons := [], wasteTypes := [], systemUsers := [] }
        (fun _ => none) "2024-01-01T00:00:00+00:00"
        { rid := "1", vesselCell := "Boaty", date := "2024/01/10",
          oilCell := some "0", oilFiltersCell := some "0",
          dieselFiltersCell := some "0", junkCell := some "0",
          captainCell := none, chefCell := none }) =
      { processed := 1, successful := 0, failed := 0, skipped := 1 } := by
  have h0 : clean_numeric_value (some "0") = 0 := by
    norm_num +decide [clean_numeric_value, numeralVal, digitsToNat, firstNumeral, pyStrip]
  have ht : totalWaste (parseRow "2024-01-01T00:00:00+00:00"
      { rid := "1", vesselCell := "Boaty", date := "2024/01/10",
        oilCell := some "0", oilFiltersCell := some "0",
        dieselFiltersCell := some "0", junkCell := some "0",
        captainCell := none, chefCell := none }) = 0 := by
    simp [totalWaste, parseRow, h0]
  refine ⟨rfl, ?_⟩
  have h2 : rowStep { vessels := [], persons := [], wasteTypes := [], systemUsers := [] }
      (fun _ => none) "2024-01-01T00:00:00+00:00"
      { rid := "1", vesselCell := "Boaty", date := "2024/01/10",
        oilCell := some "0", oilFiltersCell := some "0",
        dieselFiltersCell := some "0", junkCell := some "0",
        captainCell := none, chefCell := none } = RowResult.skip := by
    simp [rowStep, ht]
  rw [h2]
  rfl

/-- Witness for the amended C3 at a concrete input: empty caches and a row
with 50 liters of oil — the row fails, no request is issued, `failed`
increments. -/
theorem claim3_witness :
    create_compliance_manifest { vessels := [], persons := [], wasteTypes := [], systemUsers := [] }
      (fun _ => none)
      (parseRow "2024-01-01T00:00:00+00:00"
        { rid := "2", vesselCell := "Ghost Ship", date := "2024/01/11",
          oilCell := some "50 litros", oilFiltersCell := some "0",
          dieselFiltersCell := some "0", junkCell := some "0",
          captainCell := none, chefCell := none }) = (false, []) ∧
    updateStats { processed := 0, successful := 0, failed := 0, skipped := 0 }
      (rowStep { vessels := [], persons := [], wasteTypes := [], systemUsers := [] }
        (fun _ => none) "2024-01-01T00:00:00+00:00"
        { rid := "2", vesselCell := "Ghost Ship", date := "2024/01/11",
          oilCell := some "50 litros", oilFiltersCell := some "0",
          dieselFiltersCell := some "0", junkCell := some "0",
          captainCell := none, chefCell := none }) =
      { processed := 1, successful := 0, failed := 1, skipped := 0 } := by
  have he50 : firstNumeral (pyStrip "50 litros".data) = some (['5', '0'], []) := by decide
  have h50 : clean_numeric_value (some "50 litros") = 50 := by
    rw [clean_int_eval (by decide) he50]
    norm_num [show digitsToNat ['5', '0'] = 50 from by decide]
  have h0 : clean_numeric_value (some "0") = 0 := by
    norm_num +decide [clean_numeric_value, numeralVal, digitsToNat, firstNumeral, pyStrip]
  have hq : totalWaste (parseRow "2024-01-01T00:00:00+00:00"
      { rid := "2", vesselCell := "Ghost Ship", date := "2024/01/11",
        oilCell := some "50 litros", oilFiltersCell := some "0",
        dieselFiltersCell := some "0", junkCell := some "0",
        captainCell := none, chefCell := none }) ≠ 0 := by
    simp [totalWaste, parseRow, h50, h0]
  exact claim3_vessel_missing
    { vessels := [], persons := [], wasteTypes := [], systemUsers := [] }
    (fun _ => none) "2024-01-01T00:00:00+00:00"
    { rid := "2", vesselCell := "Ghost Ship", date := "2024/01/11",
      oilCell := some "50 litros", oilFiltersCell := some "0",
      dieselFiltersCell := some "0", junkCell := some "0",
      captainCell := none, chefCell := none }
    { processed := 0, successful := 0, failed := 0, skipped := 0 }
    hq (by decide)

/-- C4: a row whose four extracted waste quantities are all zero is
skipped before any submission: `skipped` increments and neither
`successful` nor `failed` changes. -/
theorem claim4_zero_waste_skipped (st : Caches) (oracle : Oracle) (now : String)
    (row : RawRow) (s : Stats)
    (h1 : (parseRow now row).oil_used = 0)
    (h2 : (parseRow now row).oil_filters_used = 0)
    (h3 : (parseRow now row).diesel_filters_used = 0)
    (h4 : (parseRow now row).junk_reported = 0) :
    rowStep st oracle now row = RowResult.skip ∧
    updateStats s (rowStep st oracle now row) =
      { s with processed := s.processed + 1, skipped := s.skipped + 1 } := by
  have ht : totalWaste (parseRow now row) = 0 := by
    rw [totalWaste, h1, h2, h3, h4]
    norm_num
  have h5 : rowStep st oracle now row = RowResult.skip := by
    simp [rowStep, ht]
  refine ⟨h5, ?_⟩
  rw [h5]
  rfl

/-- Witness for C4 at a concrete input: a row whose quantity cells parse
to zero (including an `n/a` cell) is skipped. -/
theorem claim4_witness :
    updateStats { processed := 5, successful := 2, failed := 2, skipped := 1 }
      (rowStep
        { vessels := [("boaty", { idU := some 3, idL := none })], persons := [],
          wasteTypes := [], systemUsers := [] }
        (fun _ => some { success := true, data := some { idU := some 1, idL := none } })
        "2024-01-01T00:00:00+00:00"
        { rid := "3", vesselCell := "Boaty", date := "2024/01/12",
          oilCell := some "0", oilFiltersCell := some "n/a",
          dieselFiltersCell := none, junkCell := some "0",
          captainCell := some "John Doe", chefCell := none }) =
      { processed := 6, successful := 2, failed := 2, skipped := 2 } := by
  have h0 : clean_numeric_value (some "0") = 0 := by
    norm_num +decide [clean_numeric_value, numeralVal, digitsToNat, firstNumeral, pyStrip]
  have hna : clean_numeric_value (some "n/a") = 0 := by
    norm_num +decide [clean_numeric_value, numeralVal, digitsToNat, firstNumeral, pyStrip]
  have h := claim4_zero_waste_skipped
    { vessels := [("boaty", { idU := some 3, idL := none })], persons := [],
      wasteTypes := [], systemUsers := [] }
    (fun _ => some { success := true, data := some { idU := some 1, idL := none } })
    "2024-01-01T00:00:00+00:00"
    { rid := "3", vesselCell := "Boaty", date := "2024/01/12",
      oilCell := some "0", oilFiltersCell := some "n/a",
      dieselFiltersCell := none, junkCell := some "0",
      captainCell := some "John Doe", chefCell := none }
    { processed := 5, successful := 2, failed := 2, skipped := 1 }
    (by simpa [parseRow] using h0) (by simpa [parseRow] using hna)
    (by simp [parseRow, clean_numeric_value]) (by simpa [parseRow] using h0)
  exact h.2

/-! ### Identifier-casing claims -/

/-- Counterexample for C1 as stated: a waste type whose identifier is
present only under the uppercase `ID` key (here `5`) yields a waste
creation request with `wasteTypeId` absent, because that one extraction
site reads only the lowercase `id` key — even though the compliance and
vessel extractions of the very same run do check both casings. -/
theorem claim1_counterexample :
    (create_compliance_manifest
        { vessels := [("boaty", { idU := some 7, idL := none })], persons := [],
          wasteTypes := [("aceite", { idU := some 5, idL := none })], systemUsers := [] }
        (fun _ => some { success := true, data := some { idU := none, idL := some 11 } })
        { vessel_name := "Boaty", inspection_date := "D", oil_used := 50, oil_filters_used := 0,
          diesel_filters_used := 0, junk_reported := 0, captain_name := "", chef_name := "",
          observations := "O" }).2 =
      [Request.compliance
        { vesselId := some 7, inspectionDate := "D", observations := "O",
          systemUserId := some 1, signersIds := [1] },
       Request.waste
        { vesselId := some 7, wasteTypeId := none, quantityGenerated := 50,
          generationDate := "D", complianceId := 11 }] ∧
    get_waste_type_by_name [("aceite", { idU := some 5, idL := none })] "Aceite" =
      some { idU := some 5, idL := none } := by
  constructor
  · decide
  · decide

/-- C1 (amended): every identifier extraction except the waste-type one
checks both key casings — `getIdUL` (vessel, signer, system user,
bootstrap owner) and `getIdLU` (compliance) return a nonzero identifier
present under either key — while the waste-type identifier placed in a
waste request is read from the lowercase `id` key only. -/
theorem claim1_id_casing (st : Caches) (v e : Entity) (n cid : Int) (m : ManifestData)
    (q : ℚ) (tn : String) (r : Request) (hn : n ≠ 0) :
    ((e.idU = some n ∨ (truthyO e.idU = false ∧ e.idL = some n)) → getIdUL e = some n) ∧
    ((e.idL = some n ∨ (truthyO e.idL = false ∧ e.idU = some n)) → getIdLU e = some n) ∧
    (r ∈ wasteAttempt st v cid m q tn →
      ∃ wt2 w, get_waste_type_by_name st.wasteTypes tn = some wt2 ∧
        r = Request.waste w ∧ w.wasteTypeId = wt2.idL) := by
  refine ⟨?_, ?_, ?_⟩
  · rintro (h | ⟨h1, h2⟩)
    · simp [getIdUL, pyOr, truthyO, h, hn]
    · simp [getIdUL, pyOr, h1, h2]
  · rintro (h | ⟨h1, h2⟩)
    · simp [getIdLU, pyOr, truthyO, h, hn]
    · simp [getIdLU, pyOr, h1, h2]
  · intro hmem
    unfold wasteAttempt at hmem
    split at hmem
    · split at hmem
      · rename_i wt2 hwt
        rcases List.mem_singleton.mp hmem with rfl
        exact ⟨wt2, _, hwt, rfl, rfl⟩
      · cases hmem
    · cases hmem

/-- Witness for the amended C1: both double-casing extractors find an
identifier stored under the other casing, and a concrete waste request
carries exactly the cached waste type's lowercase identifier. -/
theorem claim1_witness :
    getIdUL { idU := none, idL := some 9 } = some 9 ∧
    getIdLU { idU := some 8, idL := none } = some 8 ∧
    ∃ wt2 w,
      get_waste_type_by_name
        [("desechos solidos", { idU := none, idL := some 4 })] "Desechos Solidos" = some wt2 ∧
      Request.waste
        { vesselId := some 7, wasteTypeId := some 4, quantityGenerated := 3,
          generationDate := "D", complianceId := 11 } = Request.waste w ∧
      w.wasteTypeId = wt2.idL := by
  have hq : (0 : ℚ) < 3 := by norm_num
  have hmem : Request.waste
      { vesselId := some 7, wasteTypeId := some 4, quantityGenerated := 3,
        generationDate := "D", complianceId := 11 } ∈
      wasteAttempt
        { vessels := [], persons := [],
          wasteTypes := [("desechos solidos", { idU := none, idL := some 4 })],
          systemUsers := [] }
        { idU := some 7, idL := none } 11
        { vessel_name := "B", inspection_date := "D", oil_used := 0, oil_filters_used := 0,
          diesel_filters_used := 0, junk_reported := 3, captain_name := "", chef_name := "",
          observations := "O" }
        3 "Desechos Solidos" := by
    rw [wasteAttempt, if_pos hq]
    rw [show get_waste_type_by_name
        ({ vessels := [], persons := [],
           wasteTypes := [("desechos solidos", { idU := none, idL := some 4 })],
           systemUsers := [] } : Caches).wasteTypes "Desechos Solidos" =
      some { idU := none, idL := some 4 } from by decide]
    exact List.mem_singleton.mpr rfl
  have h := claim1_id_casing
    { vessels := [], persons := [],
      wasteTypes := [("desechos solidos", { idU := none, idL := some 4 })], systemUsers := [] }
    { idU := some 7, idL := none }
    { idU := none, idL := some 9 } 9 11
    { vessel_name := "B", inspection_date := "D", oil_used := 0, oil_filters_used := 0,
      diesel_filters_used := 0, junk_reported := 3, captain_name := "", chef_name := "",
      observations := "O" }
    3 "Desechos Solidos"
    (Request.waste
      { vesselId := some 7, wasteTypeId := some 4, quantityGenerated := 3,
        generationDate := "D", complianceId := 11 })
    (by decide)
  have h2 := claim1_id_casing
    { vessels := [], persons := [],
      wasteTypes := [("desechos solidos", { idU := none, idL := some 4 })], systemUsers := [] }
    { idU := some 7, idL := none }
    { idU := some 8, idL := none } 8 11
    { vessel_name := "B", inspection_date := "D", oil_used := 0, oil_filters_used := 0,
      diesel_filters_used := 0, junk_reported := 3, captain_name := "", chef_name := "",
      observations := "O" }
    3 "Desechos Solidos"
    (Request.waste
      { vesselId := some 7, wasteTypeId := some 4, quantityGenerated := 3,
        generationDate := "D", complianceId := 11 })
    (by decide)
  refine ⟨h.1 (Or.inr ⟨rfl, rfl⟩), h2.2.1 (Or.inr ⟨rfl, rfl⟩), ?_⟩
  exact h.2.2 hmem

/-! ### Lemmas about the bootstrap phase -/

theorem create_person_batch_req (oracle : Oracle) (name : String) (ti : Int) (ci : String) :
    (create_person_batch oracle name ti ci).req =
      Request.person { name := name, personTypeId := ti, contactInfo := ci } := by
  unfold create_person_batch
  cases oracle (Request.person { name := name, personTypeId := ti, contactInfo := ci }) with
  | none => rfl
  | some resp =>
    by_cases hs : resp.success
    · cases hd : resp.data <;> simp [hs, hd]
    · simp [hs]

theorem create_person_batch_wf {oracle : Oracle}
    (hwf : ∀ r resp, oracle r = some resp → resp.success = true → resp.data.isSome = true)
    (name : String) (ti : Int) (ci : String) :
    (create_person_batch oracle name ti ci).crashed = false := by
  unfold create_person_batch
  cases ho : oracle (Request.person { name := name, personTypeId := ti, contactInfo := ci }) with
  | none => rfl
  | some resp =>
    by_cases hs : resp.success
    · cases hd : resp.data with
      | some p => simp [hs, hd]
      | none =>
        have hd2 := hwf _ _ ho hs
        rw [hd] at hd2
        simp at hd2
    · simp [hs]

theorem create_vessel_batch_req (oracle : Oracle) (name vt : String) (oid : Option Int) :
    (create_vessel_batch oracle name vt oid).req =
      Request.vessel { vesselName := name, vesselType := vt, ownerId := oid } := by
  unfold create_vessel_batch
  cases oracle (Request.vessel { vesselName := name, vesselType := vt, ownerId := oid }) with
  | none => rfl
  | some resp =>
    by_cases hs : resp.success
    · cases hd : resp.data <;> simp [hs, hd]
    · simp [hs]

theorem create_vessel_batch_wf {oracle : Oracle}
    (hwf : ∀ r resp, oracle r = some resp → resp.success = true → resp.data.isSome = true)
    (name vt : String) (oid : Option Int) :
    (create_vessel_batch oracle name vt oid).crashed = false := by
  unfold create_vessel_batch
  cases ho : oracle (Request.vessel { vesselName := name, vesselType := vt, ownerId := oid }) with
  | none => rfl
  | some resp =>
    by_cases hs : resp.success
    · cases hd : resp.data with
      | some p => simp [hs, hd]
      | none =>
        have hd2 := hwf _ _ ho hs
        rw [hd] at hd2
        simp at hd2
    · simp [hs]

theorem createPersonsLoop_wf {oracle : Oracle}
    (hwf : ∀ r resp, oracle r = some resp → resp.success = true → resp.data.isSome = true)
    (names : List String) (ti : Int) (ci : String) :
    (createPersonsLoop oracle names ti ci).1 =
      names.map (fun n => Request.person { name := n, personTypeId := ti, contactInfo := ci }) ∧
    (createPersonsLoop oracle names ti ci).2.2 = false := by
  induction names with
  | nil => exact ⟨rfl, rfl⟩
  | cons n rest ih =>
    have hc := create_person_batch_wf hwf n ti ci
    have hr := create_person_batch_req oracle n ti ci
    constructor
    · simp [createPersonsLoop, hc, hr, ih.1]
    · simp [createPersonsLoop, hc, ih.2]

theorem createVesselsLoop_wf {oracle : Oracle}
    (hwf : ∀ r resp, oracle r = some resp → resp.success = true → resp.data.isSome = true)
    (names : List String) (oid : Option Int) :
    (createVesselsLoop oracle names oid).1 =
      names.map (fun n => Request.vessel { vesselName := n, vesselType := "Boat", ownerId := oid }) ∧
    (createVesselsLoop oracle names oid).2.2 = false := by
  induction names with
  | nil => exact ⟨rfl, rfl⟩
  | cons n rest ih =>
    have hc := create_vessel_batch_wf hwf n "Boat" oid
    have hr := create_vessel_batch_req oracle n "Boat" oid
    constructor
    · simp [createVesselsLoop, hc, hr, ih.1]
    · simp [createVesselsLoop, hc, ih.2]

/-- C9: under well-formed backend responses (`success` implies `data`
present), the bootstrap pass creates the "Unknown Owner" person first and,
if that single creation fails, aborts with no captain, chef, or vessel
creation attempted; otherwise it issues exactly one person creation per
distinct captain (type 2), then one per distinct chef (type 1), then one
vessel creation per distinct vessel name, each carrying the owner's
extracted identifier as `ownerId` — individual failures among those do not
stop the remaining creations, since the trace is the full per-category
list whatever the oracle answers. -/
theorem claim9_bootstrap (oracle : Oracle) (rows : List RawRow)
    (hwf : ∀ r resp, oracle r = some resp → resp.success = true → resp.data.isSome = true) :
    ((oracle unknownOwnerReq = none ∨
        (∃ resp, oracle unknownOwnerReq = some resp ∧ resp.success = false)) →
      setup_base_entities oracle rows = (SetupOutcome.error, [unknownOwnerReq])) ∧
    (∀ resp ow, oracle unknownOwnerReq = some resp → resp.success = true →
      resp.data = some ow →
      ∃ a b c, setup_base_entities oracle rows =
        (SetupOutcome.ok a b c,
          unknownOwnerReq ::
            ((uniqueNames captainField rows).map
                (fun n => Request.person
                  { name := n, personTypeId := 2, contactInfo := "Captain" }) ++
              (uniqueNames chefField rows).map
                (fun n => Request.person
                  { name := n, personTypeId := 1, contactInfo := "Chef" }) ++
              (uniqueNames vesselField rows).map
                (fun n => Request.vessel
                  { vesselName := n, vesselType := "Boat", ownerId := getIdUL ow })))) := by
  constructor
  · intro hfail
    have hcpb : create_person_batch oracle "Unknown Owner" 3 "Default vessel owner" =
        { req := unknownOwnerReq, res := none, crashed := false } := by
      unfold create_person_batch
      rcases hfail with hnone | ⟨resp, hsome, hsfalse⟩
      · unfold unknownOwnerReq at hnone
        rw [hnone]
        rfl
      · unfold unknownOwnerReq at hsome
        rw [hsome]
        simp [hsfalse, unknownOwnerReq]
    simp [setup_base_entities, hcpb]
  · intro resp ow hsome hs hd
    have hcpb : create_person_batch oracle "Unknown Owner" 3 "Default vessel owner" =
        { req := unknownOwnerReq, res := some ow, crashed := false } := by
      unfold create_person_batch
      unfold unknownOwnerReq at hsome
      rw [hsome]
      simp [hs, hd, unknownOwnerReq]
    have hcap := createPersonsLoop_wf hwf (uniqueNames captainField rows) 2 "Captain"
    have hchef := createPersonsLoop_wf hwf (uniqueNames chefField rows) 1 "Chef"
    have hves := createVesselsLoop_wf hwf (uniqueNames vesselField rows) (getIdUL ow)
    refine ⟨(createPersonsLoop oracle (uniqueNames captainField rows) 2 "Captain").2.1,
      (createPersonsLoop oracle (uniqueNames chefField rows) 1 "Chef").2.1,
      (createVesselsLoop oracle (uniqueNames vesselField rows) (getIdUL ow)).2.1, ?_⟩
    simp [setup_base_entities, hcpb, hcap.1, hcap.2, hchef.1, hchef.2, hves.1, hves.2]

/-- The bootstrap scenario of the spec: three rows referencing two
distinct vessels, two distinct captains and one distinct chef. -/
def bootstrapScenarioRows : List RawRow :=
  [{ rid := "1", vesselCell := "Vessel A", date := "2024/01/01",
     oilCell := some "1", oilFiltersCell := some "0", dieselFiltersCell := some "0",
     junkCell := some "0", captainCell := some "Cap One", chefCell := some "Chef One" },
   { rid := "2", vesselCell := "Vessel B", date := "2024/01/02",
     oilCell := some "2", oilFiltersCell := some "0", dieselFiltersCell := some "0",
     junkCell := some "0", captainCell := some "Cap Two", chefCell := some "Chef One" },
   { rid := "3", vesselCell := "Vessel A", date := "2024/01/03",
     oilCell := some "3", oilFiltersCell := some "0", dieselFiltersCell := some "0",
     junkCell := some "0", captainCell := some "Cap One", chefCell := some "Chef One" }]

/-- A backend that accepts every creation and always returns the entity
with identifier 21 under the uppercase key. -/
def alwaysOkOracle : Oracle :=
  fun _ => some { success := true, data := some { idU := some 21, idL := none } }

/-- Witness for C9 at the spec's bootstrap scenario: three rows with two
distinct vessels, two distinct captains and one distinct chef, against an
always-successful backend, produce one owner create, two captain creates,
one chef create and two vessel creates carrying `ownerId = 21`. -/
theorem claim9_witness :
    ∃ a b c,
      setup_base_entities alwaysOkOracle bootstrapScenarioRows =
      (SetupOutcome.ok a b c,
        unknownOwnerReq ::
          ([Request.person { name := "Cap One", personTypeId := 2, contactInfo := "Captain" },
            Request.person { name := "Cap Two", personTypeId := 2, contactInfo := "Captain" }] ++
           [Request.person { name := "Chef One", personTypeId := 1, contactInfo := "Chef" }] ++
           [Request.vessel { vesselName := "Vessel A", vesselType := "Boat", ownerId := some 21 },
            Request.vessel { vesselName := "Vessel B", vesselType := "Boat", ownerId := some 21 }])) := by
  have h := (claim9_bootstrap alwaysOkOracle bootstrapScenarioRows
    (fun r resp h1 _ => by cases h1; rfl)).2
    { success := true, data := some { idU := some 21, idL := none } }
    { idU := some 21, idL := none } rfl rfl rfl
  obtain ⟨a, b, c, hset⟩ := h
  refine ⟨a, b, c, ?_⟩
  rw [hset]
  rw [show uniqueNames captainField bootstrapScenarioRows = ["Cap One", "Cap Two"] from by decide]
  rw [show uniqueNames chefField bootstrapScenarioRows = ["Chef One"] from by decide]
  rw [show uniqueNames vesselField bootstrapScenarioRows = ["Vessel A", "Vessel B"] from by decide]
  rfl

/-! ### C10: the statistics invariant of the importer loop -/

theorem updateStats_processed (s : Stats) (r : RowResult) :
    (updateStats s r).processed = s.processed + 1 := by
  cases r <;> rfl

theorem updateStats_sum (s : Stats) (r : RowResult) :
    (updateStats s r).successful + (updateStats s r).failed + (updateStats s r).skipped =
      s.successful + s.failed + s.skipped + 1 := by
  cases r <;> simp [updateStats] <;> omega

theorem runLoop_inv (step : RawRow → RowResult) (rows : List RawRow) :
    ∀ s : Stats, s.processed = s.successful + s.failed + s.skipped →
      (runLoop step rows s).processed =
        (runLoop step rows s).successful + (runLoop step rows s).failed +
          (runLoop step rows s).skipped := by
  induction rows with
  | nil => exact fun s h => h
  | cons r rows ih =>
    intro s h
    show (runLoop step rows (updateStats s (step r))).processed = _
    apply ih
    have h1 := updateStats_processed s (step r)
    have h2 := updateStats_sum s (step r)
    omega

/-- C10: every iteration of the importer loop increments `processed` by
one and exactly one of `successful`/`failed`/`skipped` by one — an
iteration aborted by an unexpected exception is counted as failed — so
`processed = successful + failed + skipped` holds after every iteration
(for every prefix of the row list), and `process_raw_data` is exactly this
loop body over the rows. -/
theorem claim10_stats_invariant :
    (∀ (s : Stats) (r : RowResult),
      (updateStats s r).processed = s.processed + 1 ∧
      (updateStats s r).successful + (updateStats s r).failed + (updateStats s r).skipped =
        s.successful + s.failed + s.skipped + 1) ∧
    (∀ s : Stats, updateStats s RowResult.exn =
      { s with processed := s.processed + 1, failed := s.failed + 1 }) ∧
    (∀ (step : RawRow → RowResult) (rows : List RawRow) (s : Stats),
      s.processed = s.successful + s.failed + s.skipped →
      (runLoop step rows s).processed =
        (runLoop step rows s).successful + (runLoop step rows s).failed +
          (runLoop step rows s).skipped) ∧
    (∀ (st : Caches) (oracle : Oracle) (now : String) (rows : List RawRow) (s : Stats),
      process_raw_data st oracle now rows s = runLoop (rowStep st oracle now) rows s) :=
  ⟨fun s r => ⟨updateStats_processed s r, updateStats_sum s r⟩,
   fun _ => rfl,
   fun step rows s h => runLoop_inv step rows s h,
   fun _ _ _ _ _ => rfl⟩

/-- Witness for C10: a one-row run whose body raises still satisfies the
invariant, starting from zeroed statistics. -/
theorem claim10_witness :
    (runLoop (fun _ => RowResult.exn)
        [{ rid := "w", vesselCell := "V", date := "2024/01/01", oilCell := none,
           oilFiltersCell := none, dieselFiltersCell := none, junkCell := none,
           captainCell := none, chefCell := none }]
        { processed := 0, successful := 0, failed := 0, skipped := 0 }).processed =
      (runLoop (fun _ => RowResult.exn)
        [{ rid := "w", vesselCell := "V", date := "2024/01/01", oilCell := none,
           oilFiltersCell := none, dieselFiltersCell := none, junkCell := none,
           captainCell := none, chefCell := none }]
        { processed := 0, successful := 0, failed := 0, skipped := 0 }).successful +
      (runLoop (fun _ => RowResult.exn)
        [{ rid := "w", vesselCell := "V", date := "2024/01/01", oilCell := none,
           oilFiltersCell := none, dieselFiltersCell := none, junkCell := none,
           captainCell := none, chefCell := none }]
        { processed := 0, successful := 0, failed := 0, skipped := 0 }).failed +
      (runLoop (fun _ => RowResult.exn)
        [{ rid := "w", vesselCell := "V", date := "2024/01/01", oilCell := none,
           oilFiltersCell := none, dieselFiltersCell := none, junkCell := none,
           captainCell := none, chefCell := none }]
        { processed := 0, successful := 0, failed := 0, skipped := 0 }).skipped :=
  claim10_stats_invariant.2.2.1 _ _ _ rfl

end Digitizer
